import Mathlib

/-!
Verification development for the `pico-forth-from-claude` repository.

This file gives a shallow embedding, in Lean 4, of the FORTH virtual machine
implemented in `src/main.py` (class `ForthVM`), and settles a list of claims
about it.  Every definition below is translated directly from the Python
source; comments cite the Python method each definition embeds.

Modelling conventions:
* Python integers are `Int` (both are arbitrary precision, and the bitwise
  operators `&`, `|`, `^`, `~` on Python ints agree with `Int.land`,
  `Int.lor`, `Int.xor`, `Int.not`).
* The fixed-size Python lists (`stack`, `return_stack`, `code_space`) are
  Lean `List`s of the same fixed lengths, updated with `List.set`.
* Code-space cells are `Option Int`: the Python code stores `None`
  placeholder cells (`add_to_definition(None)` in `_if`/`_else`), and the
  inner interpreter tests `isinstance(instr, int)`.
* A Python exception that escapes the VM (e.g. `push(None)` evaluating
  `None >= 0`, which raises `TypeError`, or `chr` on an out-of-range value)
  is modelled by setting the `crashed` flag; execution stops at that point,
  exactly as an uncaught exception aborts `interpret`.
* Unbounded `while` loops (the inner interpreter can branch backwards, and
  `interpret` re-enters `execute`) are given a `fuel` parameter by
  structural recursion; running out of fuel sets the `timeout` flag, and
  every concrete evaluation below is checked to finish with
  `timeout = false`.
* Error messages (Python strings passed to `_error`) are modelled by the
  enumeration `Err`, one constructor per distinct message in the source.
* `print` calls are ignored: no claim below concerns the text written to
  standard output, only the VM state.
* The number lexer models `int(s)` / `int(s, 16)` on ASCII tokens with an
  optional single leading sign; exotic Python numeral forms (underscore
  separators, non-ASCII digits) are not modelled and are not exercised by
  any claim.
-/

namespace PicoForth

/-- Memory configuration constants from `ForthVM.__init__`. -/
def STACK_SIZE : Nat := 64

def RETURN_STACK_SIZE : Nat := 32

def DICT_SIZE : Nat := 128

def MAX_CODE_SIZE : Nat := 1024

/-- A code-space cell: a Python int, or the `None` placeholder. -/
abbrev Cell := Option Int

/-- The distinct messages passed to `ForthVM._error` in the source. -/
inductive Err where
  | stackOverflow
  | stackUnderflow
  | returnStackOverflow
  | returnStackUnderflow
  | dictionaryFull
  | codeSpaceFull
  | invalidNumber (token : List Char)
  | invalidWordIndex
  | unknownWord (w : List Char)
  | expectedWordNameAfterColon
  | semicolonOutsideDefinition
  | ifOutsideDefinition
  | elseOutsideDefinition
  | thenOutsideDefinition
  | doOutsideDefinition
  | loopOutsideDefinition
  | zeroBranchWordNotFound
  | branchWordNotFound
  | emitWordNotFound
  | unterminatedString
  | divisionByZero
deriving DecidableEq, Repr

/-- Identifiers for the 41 built-in words registered by `_init_primitives`,
in dictionary order.  The Python dictionary stores the lambda itself; the
embedding stores this tag and dispatches through `runPrim`. -/
inductive PrimOp where
  | dupP | dropP | swapP | overP | rotP
  | toR | rFrom | rFetch
  | addP | subP | mulP | divP | modP
  | andP | orP | xorP | notP
  | eqP | neP | ltP | gtP | leP | geP
  | emitP | crP | dotP | dotS
  | colonP | semicolonP | exitP
  | zeroBranchP | branchP
  | ifP | elseP | thenP | doP | loopP | iP | jP
  | dotQuoteP | printStringP
deriving DecidableEq, Repr

/-- A dictionary entry body: Python stores either the primitive function
(`is_primitive = True`) or a code-space offset (`is_primitive = False`). -/
inductive Body where
  | prim (p : PrimOp)
  | user (codePtr : Nat)
deriving DecidableEq, Repr

/-- A dictionary entry `(name, immediate_flag, code_pointer or function,
is_primitive)`; the `is_primitive` flag is the `Body` constructor. -/
structure Entry where
  name : String
  immediate : Bool
  body : Body
deriving DecidableEq, Repr

def defaultEntry : Entry := ⟨"", false, .user 0⟩

/-- The state of `ForthVM`.  Fields mirror the attributes set in
`__init__`; `crashed` and `timeout` are modelling artifacts (uncaught
Python exception / fuel exhaustion) and start out `false`. -/
structure VM where
  stack : List Int
  sp : Nat
  returnStack : List Int
  rsp : Nat
  dictionary : List Entry
  codeSpace : List Cell
  codeIdx : Nat
  running : Bool
  compiling : Bool
  currentWord : Option Int
  inputBuffer : List Char
  inputPos : Nat
  lastError : Option Err
  crashed : Bool
  timeout : Bool
deriving DecidableEq, Repr

/-- `ForthVM._error`: record the message; if compiling, halt. -/
def vmError (m : Err) (s : VM) : VM :=
  { s with lastError := some m,
           running := if s.compiling then false else s.running }

/-- The 16-bit normalization applied by `push`/`rpush`:
`value & 0xFFFF if value >= 0 else value | 0xFFFF0000`. -/
def normCell (v : Int) : Int :=
  if v ≥ 0 then Int.land v 0xFFFF else Int.lor v 0xFFFF0000

/-- `ForthVM.push`, taking `Option Int` because Python call sites can pass
`None` (the result of `_error`), on which `value >= 0` raises `TypeError`.
The overflow check happens before that comparison, as in the source. -/
def pushO (v : Option Int) (s : VM) : VM :=
  if s.sp ≥ STACK_SIZE then vmError .stackOverflow s
  else
    match v with
    | none => { s with crashed := true }
    | some value =>
        let value := normCell value
        { s with stack := s.stack.set s.sp value, sp := s.sp + 1 }

/-- `ForthVM.push` on an actual int. -/
def push (v : Int) (s : VM) : VM := pushO (some v) s

/-- `ForthVM.pop`: on underflow, report the error and return 0. -/
def pop (s : VM) : Int × VM :=
  if s.sp ≤ 0 then (0, vmError .stackUnderflow s)
  else (s.stack.getD (s.sp - 1) 0, { s with sp := s.sp - 1 })

/-- `ForthVM.rpush` (same 16-bit normalization as `push`). -/
def rpush (v : Int) (s : VM) : VM :=
  if s.rsp ≥ RETURN_STACK_SIZE then vmError .returnStackOverflow s
  else
    let value := normCell v
    { s with returnStack := s.returnStack.set s.rsp value, rsp := s.rsp + 1 }

/-- `ForthVM.rpop`. -/
def rpop (s : VM) : Int × VM :=
  if s.rsp ≤ 0 then (0, vmError .returnStackUnderflow s)
  else (s.returnStack.getD (s.rsp - 1) 0, { s with rsp := s.rsp - 1 })

/-- Python `str.upper()` on a token (ASCII; used case-insensitively by
`find_word`). -/
def upperChars (cs : List Char) : List Char := cs.map Char.toUpper

/-- Helper for `find_word`: scan indices `n-1, n-2, ..., 0` (newest first). -/
def findFrom (dict : List Entry) (up : List Char) : Nat → Int
  | 0 => -1
  | n + 1 =>
      if upperChars (dict.getD n defaultEntry).name.data = up then (n : Int)
      else findFrom dict up n

/-- `ForthVM.find_word`: newest-to-oldest, case-insensitive; -1 if absent. -/
def find_word (s : VM) (name : List Char) : Int :=
  findFrom s.dictionary (upperChars name) s.dictionary.length

/-- `ForthVM.create_word`: append a user entry whose body is the current
code cursor; returns the new index, or -1 when the dictionary is full. -/
def create_word (name : String) (s : VM) : Int × VM :=
  if s.dictionary.length ≥ DICT_SIZE then (-1, vmError .dictionaryFull s)
  else ((s.dictionary.length : Int),
        { s with dictionary := s.dictionary ++ [⟨name, false, .user s.codeIdx⟩] })

/-- `ForthVM.add_to_definition`. -/
def add_to_definition (v : Cell) (s : VM) : VM :=
  if s.codeIdx ≥ MAX_CODE_SIZE then vmError .codeSpaceFull s
  else { s with codeSpace := s.codeSpace.set s.codeIdx v, codeIdx := s.codeIdx + 1 }

/-- Python `str.isspace()` restricted to ASCII whitespace. -/
def pyIsSpace (c : Char) : Bool :=
  c = ' ' || c = '\t' || c = '\n' || c = '\x0d' || c = '\x0b' || c = '\x0c'

/-- A `while pos < len and p(buf[pos]): pos += 1` scan.  The counter
argument is `buf.length - pos`, which bounds the number of iterations. -/
def scanWhile (p : Char → Bool) (buf : List Char) : Nat → Nat → Nat
  | 0, pos => pos
  | n + 1, pos =>
      if pos < buf.length && p (buf.getD pos ' ') then scanWhile p buf n (pos + 1)
      else pos

def skipWhile (p : Char → Bool) (buf : List Char) (pos : Nat) : Nat :=
  scanWhile p buf (buf.length - pos) pos

/-- `ForthVM.parse_word`: skip whitespace, take a run of non-whitespace.
Returns the token (if any) and the state with `input_pos` advanced. -/
def parse_word (s : VM) : Option (List Char) × VM :=
  let pos1 := skipWhile pyIsSpace s.inputBuffer s.inputPos
  if pos1 ≥ s.inputBuffer.length then (none, { s with inputPos := pos1 })
  else
    let pos2 := skipWhile (fun c => !(pyIsSpace c)) s.inputBuffer pos1
    if pos1 = pos2 then (none, { s with inputPos := pos2 })
    else (some ((s.inputBuffer.drop pos1).take (pos2 - pos1)),
          { s with inputPos := pos2 })

def isDecDigit (c : Char) : Bool := '0' ≤ c && c ≤ '9'

def isHexDigit (c : Char) : Bool :=
  isDecDigit c || ('a' ≤ c && c ≤ 'f') || ('A' ≤ c && c ≤ 'F')

/-- Does `int(s)` succeed: optional single sign, then one or more digits. -/
def pyIsValidInt (cs : List Char) : Bool :=
  match cs with
  | '-' :: rest => !rest.isEmpty && rest.all isDecDigit
  | '+' :: rest => !rest.isEmpty && rest.all isDecDigit
  | _ => !cs.isEmpty && cs.all isDecDigit

/-- Does `int(s, 16)` succeed on a token that starts with `0x`/`0X`. -/
def pyIsValidHex (cs : List Char) : Bool :=
  match cs with
  | '0' :: x :: rest =>
      (x = 'x' || x = 'X') && !rest.isEmpty && rest.all isHexDigit
  | _ => false

/-- Python `s.startswith('0x') or s.startswith('0X')`. -/
def startsWith0x (cs : List Char) : Bool :=
  match cs with
  | '0' :: 'x' :: _ => true
  | '0' :: 'X' :: _ => true
  | _ => false

/-- `ForthVM.is_number`. -/
def is_number (cs : List Char) : Bool :=
  if cs.isEmpty then false
  else if startsWith0x cs then pyIsValidHex cs
  else pyIsValidInt cs

def decDigitsVal (cs : List Char) : Nat :=
  cs.foldl (fun a c => a * 10 + (c.toNat - 48)) 0

def hexDigitVal (c : Char) : Nat :=
  if isDecDigit c then c.toNat - 48
  else if 'a' ≤ c && c ≤ 'f' then c.toNat - 87
  else c.toNat - 55

def hexDigitsVal (cs : List Char) : Nat :=
  cs.foldl (fun a c => a * 16 + hexDigitVal c) 0

/-- The value of `int(s)` on a valid decimal token. -/
def strToInt (cs : List Char) : Int :=
  match cs with
  | '-' :: rest => -(decDigitsVal rest : Int)
  | '+' :: rest => (decDigitsVal rest : Int)
  | _ => (decDigitsVal cs : Int)

/-- The clamp in `ForthVM.parse_number`. -/
def clamp16 (v : Int) : Int :=
  if v > 32767 then 32767 else if v < -32768 then -32768 else v

/-- `ForthVM.parse_number`: parse decimal or `0x` hex, clamp to the signed
16-bit range; on `ValueError` report `Invalid number` and return 0. -/
def parse_number (cs : List Char) (s : VM) : Int × VM :=
  if startsWith0x cs then
    if pyIsValidHex cs then (clamp16 (hexDigitsVal (cs.drop 2) : Int), s)
    else (0, vmError (.invalidNumber cs) s)
  else if pyIsValidInt cs then (clamp16 (strToInt cs), s)
  else (0, vmError (.invalidNumber cs) s)

/-- Python list indexing (negative indices count from the end; out of
range raises `IndexError`). -/
def pyIdx (len : Nat) (i : Int) : Option Nat :=
  if 0 ≤ i ∧ i < (len : Int) then some i.toNat
  else if -(len : Int) ≤ i ∧ i < 0 then some (len - (-i).toNat)
  else none

/-- `self.code_space[i]` as an rvalue; `none` = `IndexError`. -/
def pyCodeGet (s : VM) (i : Int) : Option Cell :=
  (pyIdx s.codeSpace.length i).map (fun n => s.codeSpace.getD n none)

/-- `self.code_space[i] = v`; an out-of-range index raises, i.e. crashes. -/
def pyCodeSet (s : VM) (i : Int) (v : Cell) : VM :=
  match pyIdx s.codeSpace.length i with
  | some n => { s with codeSpace := s.codeSpace.set n v }
  | none => { s with crashed := true }

def zeroBranchName : List Char := "0BRANCH".data

def branchName : List Char := "BRANCH".data

def exitName : List Char := "EXIT".data

def emitWordName : List Char := "EMIT".data

/-! Primitive implementations, each translated from the lambda in
`_init_primitives` or the `_`-prefixed method it calls. -/

/-- `DUP`: `vm.push(vm.stack[vm.sp-1] if vm.sp > 0 else vm._error(...))`. -/
def primDup (s : VM) : VM :=
  if s.sp > 0 then push (s.stack.getD (s.sp - 1) 0) s
  else pushO none (vmError .stackUnderflow s)

/-- `DROP`: `vm.pop()` with the value discarded. -/
def primDrop (s : VM) : VM := (pop s).2

/-- `ForthVM._swap` (in-place, no 16-bit normalization). -/
def primSwap (s : VM) : VM :=
  if s.sp < 2 then vmError .stackUnderflow s
  else
    let a := s.stack.getD (s.sp - 1) 0
    let b := s.stack.getD (s.sp - 2) 0
    { s with stack := (s.stack.set (s.sp - 1) b).set (s.sp - 2) a }

/-- `ForthVM._over`. -/
def primOver (s : VM) : VM :=
  if s.sp < 2 then vmError .stackUnderflow s
  else push (s.stack.getD (s.sp - 2) 0) s

/-- `ForthVM._rot` (three sequential in-place writes). -/
def primRot (s : VM) : VM :=
  if s.sp < 3 then vmError .stackUnderflow s
  else
    let a := s.stack.getD (s.sp - 3) 0
    let st1 := s.stack.set (s.sp - 3) (s.stack.getD (s.sp - 2) 0)
    let st2 := st1.set (s.sp - 2) (st1.getD (s.sp - 1) 0)
    { s with stack := st2.set (s.sp - 1) a }

/-- `>R`: `vm.rpush(vm.pop())`. -/
def primToR (s : VM) : VM :=
  let (v, s1) := pop s
  rpush v s1

/-- `R>`: `vm.push(vm.rpop())`. -/
def primRFrom (s : VM) : VM :=
  let (v, s1) := rpop s
  push v s1

/-- `R@`: same conditional-expression shape as `DUP`, on the return stack. -/
def primRFetch (s : VM) : VM :=
  if s.rsp > 0 then push (s.returnStack.getD (s.rsp - 1) 0) s
  else pushO none (vmError .returnStackUnderflow s)

/-- `+`: `vm.push(vm.pop() + vm.pop() if vm.sp >= 2 else vm._error(...))`. -/
def primAdd (s : VM) : VM :=
  if s.sp ≥ 2 then
    let (b, s1) := pop s
    let (a, s2) := pop s1
    push (b + a) s2
  else pushO none (vmError .stackUnderflow s)

/-- `ForthVM._sub`. -/
def primSub (s : VM) : VM :=
  if s.sp < 2 then vmError .stackUnderflow s
  else
    let (b, s1) := pop s
    let (a, s2) := pop s1
    push (a - b) s2

/-- `*`: same unguarded-conditional shape as `+`. -/
def primMul (s : VM) : VM :=
  if s.sp ≥ 2 then
    let (b, s1) := pop s
    let (a, s2) := pop s1
    push (b * a) s2
  else pushO none (vmError .stackUnderflow s)

/-- `ForthVM._div` (Python `//` is floor division). -/
def primDiv (s : VM) : VM :=
  if s.sp < 2 then vmError .stackUnderflow s
  else
    let (b, s1) := pop s
    if b = 0 then push 0 (vmError .divisionByZero s1)
    else
      let (a, s2) := pop s1
      push (Int.fdiv a b) s2

/-- `ForthVM._mod` (Python `%` has the sign of the divisor). -/
def primMod (s : VM) : VM :=
  if s.sp < 2 then vmError .stackUnderflow s
  else
    let (b, s1) := pop s
    if b = 0 then push 0 (vmError .divisionByZero s1)
    else
      let (a, s2) := pop s1
      push (Int.fmod a b) s2

/-- `AND`: `vm.push(vm.pop() & vm.pop())` — note: no underflow guard. -/
def primAnd (s : VM) : VM :=
  let (b, s1) := pop s
  let (a, s2) := pop s1
  push (Int.land b a) s2

/-- `OR`: `vm.push(vm.pop() | vm.pop())` — no underflow guard. -/
def primOr (s : VM) : VM :=
  let (b, s1) := pop s
  let (a, s2) := pop s1
  push (Int.lor b a) s2

/-- `XOR`: `vm.push(vm.pop() ^ vm.pop())` — no underflow guard. -/
def primXor (s : VM) : VM :=
  let (b, s1) := pop s
  let (a, s2) := pop s1
  push (Int.xor b a) s2

/-- `NOT`: `vm.push(~vm.pop() & 0xFFFF)`. -/
def primNot (s : VM) : VM :=
  let (v, s1) := pop s
  push (Int.land (Int.not v) 0xFFFF) s1

/-- `ForthVM._equals` (FORTH true is -1). -/
def primEq (s : VM) : VM :=
  if s.sp < 2 then vmError .stackUnderflow s
  else
    let (b, s1) := pop s
    let (a, s2) := pop s1
    push (if a = b then -1 else 0) s2

/-- `ForthVM._not_equals`. -/
def primNe (s : VM) : VM :=
  if s.sp < 2 then vmError .stackUnderflow s
  else
    let (b, s1) := pop s
    let (a, s2) := pop s1
    push (if a ≠ b then -1 else 0) s2

/-- `ForthVM._less_than`. -/
def primLt (s : VM) : VM :=
  if s.sp < 2 then vmError .stackUnderflow s
  else
    let (b, s1) := pop s
    let (a, s2) := pop s1
    push (if a < b then -1 else 0) s2

/-- `ForthVM._greater_than`. -/
def primGt (s : VM) : VM :=
  if s.sp < 2 then vmError .stackUnderflow s
  else
    let (b, s1) := pop s
    let (a, s2) := pop s1
    push (if a > b then -1 else 0) s2

/-- `ForthVM._less_equal`. -/
def primLe (s : VM) : VM :=
  if s.sp < 2 then vmError .stackUnderflow s
  else
    let (b, s1) := pop s
    let (a, s2) := pop s1
    push (if a ≤ b then -1 else 0) s2

/-- `ForthVM._greater_equal`. -/
def primGe (s : VM) : VM :=
  if s.sp < 2 then vmError .stackUnderflow s
  else
    let (b, s1) := pop s
    let (a, s2) := pop s1
    push (if a ≥ b then -1 else 0) s2

/-- `ForthVM._emit`: pop and output `chr(char)`; `chr` raises unless
`0 <= char <= 0x10FFFF` (the output itself is not modelled). -/
def primEmit (s : VM) : VM :=
  if s.sp < 1 then vmError .stackUnderflow s
  else
    let (ch, s1) := pop s
    if 0 ≤ ch ∧ ch < 1114112 then s1 else { s1 with crashed := true }

/-- `CR`: prints a newline; no VM state change. -/
def primCr (s : VM) : VM := s

/-- `ForthVM._dot`: pop and print. -/
def primDot (s : VM) : VM :=
  if s.sp < 1 then vmError .stackUnderflow s
  else (pop s).2

/-- `ForthVM._dot_s`: non-destructive print; no VM state change. -/
def primDotS (s : VM) : VM := s

/-- `ForthVM._colon`: parse the name, create the entry, enter compile
state.  Note `compiling` is set even when `create_word` failed. -/
def primColon (s : VM) : VM :=
  match parse_word s with
  | (none, s1) => vmError .expectedWordNameAfterColon s1
  | (some cs, s1) =>
      let (idx, s2) := create_word (String.mk cs) s1
      { s2 with currentWord := some idx, compiling := true }

/-- `ForthVM._semicolon`: append `EXIT`, leave compile state. -/
def primSemicolon (s : VM) : VM :=
  if !s.compiling then vmError .semicolonOutsideDefinition s
  else
    let exitIdx := find_word s exitName
    let s1 := if exitIdx ≥ 0 then add_to_definition (some exitIdx) s else s
    { s1 with compiling := false }

/-- `ForthVM._exit`: `pass` — no run-time operation. -/
def primExit (s : VM) : VM := s

/-- The `0BRANCH` entry body is `lambda vm: None` (handled in `execute`). -/
def primZeroBranch (s : VM) : VM := s

/-- The `BRANCH` entry body is `lambda vm: None`. -/
def primBranch (s : VM) : VM := s

/-- `ForthVM._if`: emit `0BRANCH` and a `None` placeholder; push the
placeholder offset on the return stack. -/
def primIf (s : VM) : VM :=
  if !s.compiling then vmError .ifOutsideDefinition s
  else
    let bi := find_word s zeroBranchName
    if bi < 0 then vmError .zeroBranchWordNotFound s
    else
      let s1 := add_to_definition (some bi) s
      let branchIdx := s1.codeIdx
      let s2 := add_to_definition none s1
      rpush (branchIdx : Int) s2

/-- `ForthVM._else`: pop the `IF` hole, emit `BRANCH` plus placeholder,
patch the `IF` hole to the current cursor, push the new hole. -/
def primElse (s : VM) : VM :=
  if !s.compiling then vmError .elseOutsideDefinition s
  else
    let (ifBranchIdx, s1) := rpop s
    let bi := find_word s1 branchName
    if bi < 0 then vmError .branchWordNotFound s1
    else
      let s2 := add_to_definition (some bi) s1
      let elseBranchIdx := s2.codeIdx
      let s3 := add_to_definition none s2
      let s4 := pyCodeSet s3 ifBranchIdx (some (s3.codeIdx : Int))
      rpush (elseBranchIdx : Int) s4

/-- `ForthVM._then`: pop a hole offset and patch it to the cursor. -/
def primThen (s : VM) : VM :=
  if !s.compiling then vmError .thenOutsideDefinition s
  else
    let (branchIdx, s1) := rpop s
    pyCodeSet s1 branchIdx (some (s1.codeIdx : Int))

/-- `ForthVM._do`: push the loop-top cursor. -/
def primDo (s : VM) : VM :=
  if !s.compiling then vmError .doOutsideDefinition s
  else rpush (s.codeIdx : Int) s

/-- `ForthVM._loop`: pop the loop-top and emit it as a bare cell. -/
def primLoop (s : VM) : VM :=
  if !s.compiling then vmError .loopOutsideDefinition s
  else
    let (startIdx, s1) := rpop s
    add_to_definition (some startIdx) s1

/-- `ForthVM._i`: push the top of the return stack. -/
def primI (s : VM) : VM :=
  if s.rsp < 1 then vmError .returnStackUnderflow s
  else push (s.returnStack.getD (s.rsp - 1) 0) s

/-- `ForthVM._j`: push the third return-stack cell from the top. -/
def primJ (s : VM) : VM :=
  if s.rsp < 3 then vmError .returnStackUnderflow s
  else push (s.returnStack.getD (s.rsp - 3) 0) s

/-- The `skip the space after dot-quote` step of `_dot_quote`. -/
def skipOneSpace (s : VM) : VM :=
  if s.inputPos < s.inputBuffer.length
      ∧ pyIsSpace (s.inputBuffer.getD s.inputPos ' ') then
    { s with inputPos := s.inputPos + 1 }
  else s

/-- Compile-time loop of `_dot_quote`: for each character, emit the
character as a literal followed by a call to `EMIT`. -/
def compileString (emitIdx : Int) (cs : List Char) (s : VM) : VM :=
  match cs with
  | [] => s
  | c :: rest =>
      let s1 := add_to_definition (some (-(c.toNat : Int) - 1)) s
      let s2 := add_to_definition (some emitIdx) s1
      compileString emitIdx rest s2

/-- `ForthVM._dot_quote` (the printing in interpret state is ignored). -/
def primDotQuote (s : VM) : VM :=
  if !s.compiling then
    let s1 := skipOneSpace s
    let pos2 := skipWhile (fun c => c ≠ '"') s1.inputBuffer s1.inputPos
    if pos2 ≥ s1.inputBuffer.length then
      vmError .unterminatedString { s1 with inputPos := pos2 }
    else { s1 with inputPos := pos2 + 1 }
  else
    let s1 := skipOneSpace s
    let start := s1.inputPos
    let pos2 := skipWhile (fun c => c ≠ '"') s1.inputBuffer s1.inputPos
    if pos2 ≥ s1.inputBuffer.length then
      vmError .unterminatedString { s1 with inputPos := pos2 }
    else
      let str := (s1.inputBuffer.drop start).take (pos2 - start)
      let s2 := { s1 with inputPos := pos2 + 1 }
      let emitIdx := find_word s2 emitWordName
      if emitIdx < 0 then vmError .emitWordNotFound s2
      else compileString emitIdx str s2

/-- `(")`: `pass`. -/
def primPrintString (s : VM) : VM := s

/-- Dispatch a primitive tag to its implementation (the lambda stored in
the Python dictionary). -/
def runPrim (p : PrimOp) (s : VM) : VM :=
  match p with
  | .dupP => primDup s
  | .dropP => primDrop s
  | .swapP => primSwap s
  | .overP => primOver s
  | .rotP => primRot s
  | .toR => primToR s
  | .rFrom => primRFrom s
  | .rFetch => primRFetch s
  | .addP => primAdd s
  | .subP => primSub s
  | .mulP => primMul s
  | .divP => primDiv s
  | .modP => primMod s
  | .andP => primAnd s
  | .orP => primOr s
  | .xorP => primXor s
  | .notP => primNot s
  | .eqP => primEq s
  | .neP => primNe s
  | .ltP => primLt s
  | .gtP => primGt s
  | .leP => primLe s
  | .geP => primGe s
  | .emitP => primEmit s
  | .crP => primCr s
  | .dotP => primDot s
  | .dotS => primDotS s
  | .colonP => primColon s
  | .semicolonP => primSemicolon s
  | .exitP => primExit s
  | .zeroBranchP => primZeroBranch s
  | .branchP => primBranch s
  | .ifP => primIf s
  | .elseP => primElse s
  | .thenP => primThen s
  | .doP => primDo s
  | .loopP => primLoop s
  | .iP => primI s
  | .jP => primJ s
  | .dotQuoteP => primDotQuote s
  | .printStringP => primPrintString s

/-- The mode of the combined execution function: run a word by dictionary
index (`ForthVM.execute`), or run the inner fetch loop at offset `i`. -/
inductive ExecMode where
  | word (wordIdx : Int)
  | fetch (i : Int)

/-- `ForthVM.execute` and its inner `while i < self.code_idx and
self.running` fetch loop, fuelled.  `ExecMode.word` is the method entry;
`ExecMode.fetch` is one check of the loop condition at offset `i`. -/
def run : Nat → ExecMode → VM → VM
  | 0, _, s => { s with timeout := true }
  | fuel + 1, .word wordIdx, s =>
      if wordIdx < 0 ∨ wordIdx ≥ (s.dictionary.length : Int) then
        vmError .invalidWordIndex s
      else
        match (s.dictionary.getD wordIdx.toNat defaultEntry).body with
        | .prim p => runPrim p s
        | .user codePtr => run fuel (.fetch (codePtr : Int)) s
  | fuel + 1, .fetch i, s =>
      if i < (s.codeIdx : Int) ∧ s.running = true then
        match pyCodeGet s i with
        | none => { s with crashed := true }
        | some instr =>
            match instr with
            | none => run fuel (.fetch (i + 1)) s
            | some v =>
                if 0 ≤ v then
                  if v = find_word s zeroBranchName then
                    let (cond, s1) := pop s
                    if cond = 0 then
                      match pyCodeGet s1 (i + 1) with
                      | some (some t) => run fuel (.fetch t) s1
                      | some none => { s1 with crashed := true }
                      | none => { s1 with crashed := true }
                    else run fuel (.fetch (i + 2)) s1
                  else if v = find_word s branchName then
                    match pyCodeGet s (i + 1) with
                    | some (some t) => run fuel (.fetch t) s
                    | some none => { s with crashed := true }
                    | none => { s with crashed := true }
                  else
                    let s1 := run fuel (.word v) s
                    if s1.crashed then s1 else run fuel (.fetch (i + 1)) s1
                else run fuel (.fetch (i + 1)) (push (-v - 1) s)
      else s

/-- `ForthVM.execute`. -/
def execute (fuel : Nat) (wordIdx : Int) (s : VM) : VM :=
  run fuel (.word wordIdx) s

/-- The inner-interpreter fetch loop of `execute`, entered at offset `i`. -/
def innerLoop (fuel : Nat) (i : Int) (s : VM) : VM :=
  run fuel (.fetch i) s

/-- The body of the `interpret` loop for one token: dictionary dispatch,
number handling, or the unknown-word error.  Returns (`break?`, state). -/
def processWord (fuel : Nat) (cs : List Char) (s : VM) : Bool × VM :=
  let wordIdx := find_word s cs
  if wordIdx ≥ 0 then
    let entry := s.dictionary.getD wordIdx.toNat defaultEntry
    if s.compiling ∧ !entry.immediate then
      (false, add_to_definition (some wordIdx) s)
    else (false, execute fuel wordIdx s)
  else if is_number cs then
    let (num, s1) := parse_number cs s
    if s1.compiling then (false, add_to_definition (some (-num - 1)) s1)
    else (false, push num s1)
  else (true, vmError (.unknownWord cs) s)

/-- The `while word and self.running` loop of `ForthVM.interpret`.  A
crash (uncaught exception) aborts the loop at the point it occurs. -/
def interpretAux : Nat → Option (List Char) → VM → VM
  | 0, _, s => { s with timeout := true }
  | fuel + 1, w, s =>
      match w with
      | none => s
      | some cs =>
          if s.running then
            let (brk, s1) := processWord fuel cs s
            if s1.crashed then s1
            else if brk then s1
            else
              let (w2, s2) := parse_word s1
              interpretAux fuel w2 s2
          else s

/-- `ForthVM.interpret`: load the line, then run the token loop. -/
def interpret (fuel : Nat) (line : List Char) (s : VM) : VM :=
  let s0 := { s with inputBuffer := line, inputPos := 0 }
  let pr := parse_word s0
  interpretAux fuel pr.1 pr.2

/-- The dictionary built by `_init_primitives`, in registration order
(indices 0..40). -/
def initDict : List Entry := [
  ⟨"DUP", false, .prim .dupP⟩,
  ⟨"DROP", false, .prim .dropP⟩,
  ⟨"SWAP", false, .prim .swapP⟩,
  ⟨"OVER", false, .prim .overP⟩,
  ⟨"ROT", false, .prim .rotP⟩,
  ⟨">R", false, .prim .toR⟩,
  ⟨"R>", false, .prim .rFrom⟩,
  ⟨"R@", false, .prim .rFetch⟩,
  ⟨"+", false, .prim .addP⟩,
  ⟨"-", false, .prim .subP⟩,
  ⟨"*", false, .prim .mulP⟩,
  ⟨"/", false, .prim .divP⟩,
  ⟨"MOD", false, .prim .modP⟩,
  ⟨"AND", false, .prim .andP⟩,
  ⟨"OR", false, .prim .orP⟩,
  ⟨"XOR", false, .prim .xorP⟩,
  ⟨"NOT", false, .prim .notP⟩,
  ⟨"=", false, .prim .eqP⟩,
  ⟨"<>", false, .prim .neP⟩,
  ⟨"<", false, .prim .ltP⟩,
  ⟨">", false, .prim .gtP⟩,
  ⟨"<=", false, .prim .leP⟩,
  ⟨">=", false, .prim .geP⟩,
  ⟨"EMIT", false, .prim .emitP⟩,
  ⟨"CR", false, .prim .crP⟩,
  ⟨".", false, .prim .dotP⟩,
  ⟨".S", false, .prim .dotS⟩,
  ⟨":", false, .prim .colonP⟩,
  ⟨";", true, .prim .semicolonP⟩,
  ⟨"EXIT", false, .prim .exitP⟩,
  ⟨"0BRANCH", false, .prim .zeroBranchP⟩,
  ⟨"BRANCH", false, .prim .branchP⟩,
  ⟨"IF", true, .prim .ifP⟩,
  ⟨"ELSE", true, .prim .elseP⟩,
  ⟨"THEN", true, .prim .thenP⟩,
  ⟨"DO", true, .prim .doP⟩,
  ⟨"LOOP", true, .prim .loopP⟩,
  ⟨"I", false, .prim .iP⟩,
  ⟨"J", false, .prim .jP⟩,
  ⟨".\"", true, .prim .dotQuoteP⟩,
  ⟨"(\")", false, .prim .printStringP⟩]

/-- A straight-line sequence of code emissions (calls or literals), as the
outer interpreter performs between two immediate control words. -/
def emitList (vs : List Cell) (s : VM) : VM :=
  vs.foldl (fun t v => add_to_definition v t) s

/-- The state built by `ForthVM.__init__`. -/
def initVM : VM :=
  { stack := List.replicate STACK_SIZE 0
    sp := 0
    returnStack := List.replicate RETURN_STACK_SIZE 0
    rsp := 0
    dictionary := initDict
    codeSpace := List.replicate MAX_CODE_SIZE (some 0)
    codeIdx := 0
    running := true
    compiling := false
    currentWord := none
    inputBuffer := []
    inputPos := 0
    lastError := none
    crashed := false
    timeout := false }

end PicoForth

namespace PicoForth

set_option maxRecDepth 10000

/-! ## Helper lemmas -/

theorem normCell_eq_of_lt (v : Int) (h0 : 0 ≤ v) (h1 : v < 65536) :
    normCell v = v := by
  unfold normCell
  rw [if_pos h0]
  obtain ⟨n, rfl⟩ := Int.eq_ofNat_of_zero_le h0
  have hn : n < 65536 := by exact_mod_cast h1
  have h2 : n &&& 65535 = n := by
    have := Nat.and_pow_two_sub_one_of_lt_two_pow (n := 16) (x := n) (by norm_num at hn ⊢; omega)
    simpa using this
  show Int.land (Int.ofNat n) (Int.ofNat 65535) = Int.ofNat n
  simp [Int.land, h2]

theorem getD_set_self {α : Type} (l : List α) (i : Nat) (v d : α)
    (h : i < l.length) : (l.set i v).getD i d = v := by
  simp [List.getD_eq_getElem?_getD, List.getElem?_set_self h]

theorem getD_set_ne {α : Type} (l : List α) {i j : Nat} (v d : α)
    (h : i ≠ j) : (l.set i v).getD j d = l.getD j d := by
  simp [List.getD_eq_getElem?_getD, List.getElem?_set_ne h]

theorem getD_append_length {α : Type} (d : List α) (e x : α) :
    (d ++ [e]).getD d.length x = e := by
  induction d with
  | nil => rfl
  | cons hd tl ih => simp [ih]

theorem add_to_definition_eq (v : Cell) (s : VM)
    (h : s.codeIdx < MAX_CODE_SIZE) :
    add_to_definition v s =
      { s with codeSpace := s.codeSpace.set s.codeIdx v,
               codeIdx := s.codeIdx + 1 } := by
  unfold add_to_definition
  rw [if_neg (by omega)]

theorem rpush_eq (v : Int) (s : VM) (h : s.rsp < RETURN_STACK_SIZE) :
    rpush v s =
      { s with returnStack := s.returnStack.set s.rsp (normCell v),
               rsp := s.rsp + 1 } := by
  unfold rpush
  rw [if_neg (by omega)]

theorem rpop_eq (s : VM) (h : 0 < s.rsp) :
    rpop s = (s.returnStack.getD (s.rsp - 1) 0, { s with rsp := s.rsp - 1 }) := by
  unfold rpop
  rw [if_neg (by omega)]

theorem pyCodeSet_eq (s : VM) (i : Int) (v : Cell) (h0 : 0 ≤ i)
    (h1 : i < (s.codeSpace.length : Int)) :
    pyCodeSet s i v = { s with codeSpace := s.codeSpace.set i.toNat v } := by
  unfold pyCodeSet pyIdx
  rw [if_pos ⟨h0, h1⟩]

theorem find_word_eq_of_dict (s1 s2 : VM) (h : s1.dictionary = s2.dictionary)
    (n : List Char) : find_word s1 n = find_word s2 n := by
  unfold find_word
  rw [h]

theorem create_word_eq (n : String) (s : VM)
    (h : s.dictionary.length < DICT_SIZE) :
    create_word n s =
      ((s.dictionary.length : Int),
       { s with dictionary := s.dictionary ++ [⟨n, false, .user s.codeIdx⟩] }) := by
  unfold create_word
  rw [if_neg (by omega)]

theorem parse_word_shape (s : VM) :
    ∃ p, (parse_word s).2 = { s with inputPos := p } := by
  unfold parse_word
  dsimp only
  split
  · exact ⟨_, rfl⟩
  · split
    · exact ⟨_, rfl⟩
    · exact ⟨_, rfl⟩

theorem emitList_spec (vs : List Cell) (s : VM)
    (h : s.codeIdx + vs.length ≤ MAX_CODE_SIZE) :
    (emitList vs s).codeIdx = s.codeIdx + vs.length ∧
    (emitList vs s).codeSpace.length = s.codeSpace.length ∧
    (∀ j, j < s.codeIdx →
      (emitList vs s).codeSpace.getD j none = s.codeSpace.getD j none) ∧
    (emitList vs s).compiling = s.compiling ∧
    (emitList vs s).rsp = s.rsp ∧
    (emitList vs s).returnStack = s.returnStack ∧
    (emitList vs s).dictionary = s.dictionary := by
  induction vs generalizing s with
  | nil => simp [emitList]
  | cons v tl ih =>
    have hlen : (v :: tl).length = tl.length + 1 := by simp
    rw [hlen] at h
    have hlt : s.codeIdx < MAX_CODE_SIZE := by omega
    have hstep : emitList (v :: tl) s = emitList tl (add_to_definition v s) := rfl
    rw [hstep, add_to_definition_eq v s hlt]
    obtain ⟨h1, h2, h3, h4, h5, h6, h7⟩ :=
      ih { s with codeSpace := s.codeSpace.set s.codeIdx v,
                  codeIdx := s.codeIdx + 1 }
        (by dsimp only; omega)
    refine ⟨?_, ?_, ?_, ?_, ?_, ?_, ?_⟩
    · rw [h1]; dsimp only; rw [hlen]; omega
    · rw [h2]; dsimp only; simp
    · intro j hj
      rw [h3 j (by dsimp only; omega)]
      dsimp only
      exact getD_set_ne s.codeSpace v none (by omega)
    · rw [h4]
    · rw [h5]
    · rw [h6]
    · rw [h7]

theorem primIf_eq (s : VM) (hc : s.compiling = true)
    (hz : 0 ≤ find_word s zeroBranchName)
    (hcap : s.codeIdx + 1 < MAX_CODE_SIZE)
    (hr : s.rsp < RETURN_STACK_SIZE) :
    primIf s =
      { s with
        codeSpace := (s.codeSpace.set s.codeIdx
            (some (find_word s zeroBranchName))).set (s.codeIdx + 1) none,
        codeIdx := s.codeIdx + 2,
        returnStack := s.returnStack.set s.rsp ((s.codeIdx : Int) + 1),
        rsp := s.rsp + 1 } := by
  unfold primIf
  rw [if_neg (by simp [hc])]
  show (if find_word s zeroBranchName < 0
        then vmError .zeroBranchWordNotFound s
        else rpush (((add_to_definition (some (find_word s zeroBranchName)) s).codeIdx : Nat) : Int)
              (add_to_definition none (add_to_definition (some (find_word s zeroBranchName)) s))) = _
  rw [if_neg (by omega)]
  rw [add_to_definition_eq _ _ (by omega)]
  dsimp only
  rw [add_to_definition_eq _ _ (by dsimp only; omega)]
  dsimp only
  rw [rpush_eq _ _ (by dsimp only; omega)]
  dsimp only
  rw [normCell_eq_of_lt _ (by omega) (by
    have : s.codeIdx + 1 < 1024 := by
      have hm : MAX_CODE_SIZE = 1024 := rfl
      omega
    push_cast
    omega)]
  push_cast
  rfl

theorem primThen_eq (s : VM) (hc : s.compiling = true) (hr : 0 < s.rsp)
    (hb0 : 0 ≤ s.returnStack.getD (s.rsp - 1) 0)
    (hb1 : s.returnStack.getD (s.rsp - 1) 0 < (s.codeSpace.length : Int)) :
    primThen s =
      { s with
        codeSpace := s.codeSpace.set
          (s.returnStack.getD (s.rsp - 1) 0).toNat (some (s.codeIdx : Int)),
        rsp := s.rsp - 1 } := by
  unfold primThen
  rw [if_neg (by simp [hc])]
  rw [rpop_eq s hr]
  dsimp only
  rw [pyCodeSet_eq _ _ _ hb0 (by dsimp only; exact hb1)]

theorem primElse_eq (s : VM) (hc : s.compiling = true) (hr : 0 < s.rsp)
    (hrle : s.rsp ≤ RETURN_STACK_SIZE)
    (hbr : 0 ≤ find_word s branchName)
    (hcap : s.codeIdx + 1 < MAX_CODE_SIZE)
    (ht0 : 0 ≤ s.returnStack.getD (s.rsp - 1) 0)
    (ht1 : s.returnStack.getD (s.rsp - 1) 0 < (s.codeSpace.length : Int)) :
    primElse s =
      { s with
        codeSpace := ((s.codeSpace.set s.codeIdx
            (some (find_word s branchName))).set (s.codeIdx + 1) none).set
            (s.returnStack.getD (s.rsp - 1) 0).toNat ((some ((s.codeIdx : Int) + 2))),
        codeIdx := s.codeIdx + 2,
        returnStack := s.returnStack.set (s.rsp - 1) ((s.codeIdx : Int) + 1),
        rsp := s.rsp } := by
  unfold primElse
  rw [if_neg (by simp [hc])]
  rw [rpop_eq s hr]
  dsimp only
  rw [find_word_eq_of_dict { s with rsp := s.rsp - 1 } s rfl]
  rw [if_neg (by omega)]
  rw [add_to_definition_eq _ _ (by dsimp only; omega)]
  dsimp only
  rw [add_to_definition_eq _ _ (by dsimp only; omega)]
  dsimp only
  rw [pyCodeSet_eq _ _ _ ht0 (by simp only [List.length_set]; exact ht1)]
  dsimp only
  rw [rpush_eq _ _ (by dsimp only; omega)]
  dsimp only
  rw [normCell_eq_of_lt _ (by omega) (by
    have hm : MAX_CODE_SIZE = 1024 := rfl
    push_cast
    omega)]
  have hr1 : s.rsp - 1 + 1 = s.rsp := by omega
  rw [hr1]
  push_cast
  rfl

theorem branch_patch_if_then (s0 : VM) (vs : List Cell)
    (hc : s0.compiling = true)
    (hz : 0 ≤ find_word s0 zeroBranchName)
    (hclen : s0.codeSpace.length = MAX_CODE_SIZE)
    (hrlen : s0.returnStack.length = RETURN_STACK_SIZE)
    (hr : s0.rsp < RETURN_STACK_SIZE)
    (hcap : s0.codeIdx + 2 + vs.length ≤ MAX_CODE_SIZE) :
    (primThen (emitList vs (primIf s0))).codeSpace.getD (s0.codeIdx + 1) none
      = some (((primThen (emitList vs (primIf s0))).codeIdx : Nat) : Int) ∧
    (primThen (emitList vs (primIf s0))).codeIdx = s0.codeIdx + 2 + vs.length := by
  have hm : MAX_CODE_SIZE = 1024 := rfl
  have hrm : RETURN_STACK_SIZE = 32 := rfl
  rw [primIf_eq s0 hc hz (by omega) hr]
  obtain ⟨e1, e2, e3, e4, e5, e6, e7⟩ :=
    emitList_spec vs
      { s0 with
        codeSpace := (s0.codeSpace.set s0.codeIdx
            (some (find_word s0 zeroBranchName))).set (s0.codeIdx + 1) none,
        codeIdx := s0.codeIdx + 2,
        returnStack := s0.returnStack.set s0.rsp ((s0.codeIdx : Int) + 1),
        rsp := s0.rsp + 1 }
      (by dsimp only; omega)
  dsimp only at e1 e2 e3 e4 e5 e6 e7
  set S2 := emitList vs
      { s0 with
        codeSpace := (s0.codeSpace.set s0.codeIdx
            (some (find_word s0 zeroBranchName))).set (s0.codeIdx + 1) none,
        codeIdx := s0.codeIdx + 2,
        returnStack := s0.returnStack.set s0.rsp ((s0.codeIdx : Int) + 1),
        rsp := s0.rsp + 1 } with hS2
  have hc2 : S2.compiling = true := by rw [e4]; exact hc
  have hr2 : 0 < S2.rsp := by rw [e5]; omega
  have hv : S2.returnStack.getD (S2.rsp - 1) 0 = (s0.codeIdx : Int) + 1 := by
    rw [e6, e5]
    simpa using getD_set_self s0.returnStack s0.rsp ((s0.codeIdx : Int) + 1) 0 (by omega)
  have hlen2 : S2.codeSpace.length = MAX_CODE_SIZE := by
    rw [e2]; simpa using hclen
  have hb0 : 0 ≤ S2.returnStack.getD (S2.rsp - 1) 0 := by rw [hv]; omega
  have hb1 : S2.returnStack.getD (S2.rsp - 1) 0 < (S2.codeSpace.length : Int) := by
    rw [hv, hlen2]
    omega
  rw [primThen_eq S2 hc2 hr2 hb0 hb1]
  dsimp only
  rw [hv]
  have htn : ((s0.codeIdx : Int) + 1).toNat = s0.codeIdx + 1 := by omega
  rw [htn]
  constructor
  · have hlt : s0.codeIdx + 1 < S2.codeSpace.length := by omega
    exact getD_set_self S2.codeSpace (s0.codeIdx + 1) (some ((S2.codeIdx : Nat) : Int)) none hlt
  · exact e1

theorem branch_patch_if_else_then (s0 : VM) (vs1 vs2 : List Cell)
    (hc : s0.compiling = true)
    (hz : 0 ≤ find_word s0 zeroBranchName)
    (hbr : 0 ≤ find_word s0 branchName)
    (hclen : s0.codeSpace.length = MAX_CODE_SIZE)
    (hrlen : s0.returnStack.length = RETURN_STACK_SIZE)
    (hr : s0.rsp < RETURN_STACK_SIZE)
    (hcap : s0.codeIdx + 4 + vs1.length + vs2.length ≤ MAX_CODE_SIZE) :
    (primThen (emitList vs2 (primElse (emitList vs1 (primIf s0))))).codeSpace.getD
        (s0.codeIdx + 1) none
      = some ((s0.codeIdx + 2 + vs1.length + 2 : Nat) : Int) ∧
    (primThen (emitList vs2 (primElse (emitList vs1 (primIf s0))))).codeSpace.getD
        (s0.codeIdx + 2 + vs1.length + 1) none
      = some (((primThen (emitList vs2 (primElse
          (emitList vs1 (primIf s0))))).codeIdx : Nat) : Int) ∧
    (primThen (emitList vs2 (primElse (emitList vs1 (primIf s0))))).codeIdx
      = s0.codeIdx + 4 + vs1.length + vs2.length := by
  have hm : MAX_CODE_SIZE = 1024 := rfl
  have hrm : RETURN_STACK_SIZE = 32 := rfl
  rw [primIf_eq s0 hc hz (by omega) hr]
  obtain ⟨e1, e2, e3, e4, e5, e6, e7⟩ :=
    emitList_spec vs1
      { s0 with
        codeSpace := (s0.codeSpace.set s0.codeIdx
            (some (find_word s0 zeroBranchName))).set (s0.codeIdx + 1) none,
        codeIdx := s0.codeIdx + 2,
        returnStack := s0.returnStack.set s0.rsp ((s0.codeIdx : Int) + 1),
        rsp := s0.rsp + 1 }
      (by dsimp only; omega)
  dsimp only at e1 e2 e3 e4 e5 e6 e7
  set S2 := emitList vs1
      { s0 with
        codeSpace := (s0.codeSpace.set s0.codeIdx
            (some (find_word s0 zeroBranchName))).set (s0.codeIdx + 1) none,
        codeIdx := s0.codeIdx + 2,
        returnStack := s0.returnStack.set s0.rsp ((s0.codeIdx : Int) + 1),
        rsp := s0.rsp + 1 } with hS2
  have hlen2 : S2.codeSpace.length = MAX_CODE_SIZE := by
    rw [e2]; simpa using hclen
  have hrl2 : S2.returnStack.length = RETURN_STACK_SIZE := by
    rw [e6]; simpa using hrlen
  have hc2 : S2.compiling = true := by rw [e4]; exact hc
  have hr2 : 0 < S2.rsp := by rw [e5]; omega
  have hrle2 : S2.rsp ≤ RETURN_STACK_SIZE := by rw [e5]; omega
  have hfw : find_word S2 branchName = find_word s0 branchName :=
    find_word_eq_of_dict S2 s0 e7 branchName
  have hbr2 : 0 ≤ find_word S2 branchName := by rw [hfw]; exact hbr
  have hcap2 : S2.codeIdx + 1 < MAX_CODE_SIZE := by rw [e1]; omega
  have hv2 : S2.returnStack.getD (S2.rsp - 1) 0 = (s0.codeIdx : Int) + 1 := by
    rw [e6, e5]
    simpa using getD_set_self s0.returnStack s0.rsp ((s0.codeIdx : Int) + 1) 0 (by omega)
  have ht0 : 0 ≤ S2.returnStack.getD (S2.rsp - 1) 0 := by rw [hv2]; omega
  have ht1 : S2.returnStack.getD (S2.rsp - 1) 0 < (S2.codeSpace.length : Int) := by
    rw [hv2, hlen2]; omega
  rw [primElse_eq S2 hc2 hr2 hrle2 hbr2 hcap2 ht0 ht1]
  rw [hfw, hv2]
  have htn1 : ((s0.codeIdx : Int) + 1).toNat = s0.codeIdx + 1 := by omega
  rw [htn1]
  obtain ⟨f1, f2, f3, f4, f5, f6, f7⟩ :=
    emitList_spec vs2
      { S2 with
        codeSpace := ((S2.codeSpace.set S2.codeIdx
            (some (find_word s0 branchName))).set (S2.codeIdx + 1) none).set
            (s0.codeIdx + 1) (some ((S2.codeIdx : Int) + 2)),
        codeIdx := S2.codeIdx + 2,
        returnStack := S2.returnStack.set (S2.rsp - 1) ((S2.codeIdx : Int) + 1),
        rsp := S2.rsp }
      (by show S2.codeIdx + 2 + vs2.length ≤ MAX_CODE_SIZE; omega)
  set S4 := emitList vs2
      { S2 with
        codeSpace := ((S2.codeSpace.set S2.codeIdx
            (some (find_word s0 branchName))).set (S2.codeIdx + 1) none).set
            (s0.codeIdx + 1) (some ((S2.codeIdx : Int) + 2)),
        codeIdx := S2.codeIdx + 2,
        returnStack := S2.returnStack.set (S2.rsp - 1) ((S2.codeIdx : Int) + 1),
        rsp := S2.rsp } with hS4
  have g1 : S4.codeIdx = S2.codeIdx + 2 + vs2.length := f1
  have g2 : S4.codeSpace.length = S2.codeSpace.length := by simpa using f2
  have g3 : ∀ j, j < S2.codeIdx + 2 →
      S4.codeSpace.getD j none =
        (((S2.codeSpace.set S2.codeIdx
            (some (find_word s0 branchName))).set (S2.codeIdx + 1) none).set
            (s0.codeIdx + 1) (some ((S2.codeIdx : Int) + 2))).getD j none := f3
  have g4 : S4.compiling = S2.compiling := f4
  have g5 : S4.rsp = S2.rsp := f5
  have g6 : S4.returnStack
      = S2.returnStack.set (S2.rsp - 1) ((S2.codeIdx : Int) + 1) := f6
  have hlen4 : S4.codeSpace.length = MAX_CODE_SIZE := by rw [g2]; exact hlen2
  have hc4 : S4.compiling = true := by rw [g4]; exact hc2
  have hr4 : 0 < S4.rsp := by rw [g5]; exact hr2
  have hv4 : S4.returnStack.getD (S4.rsp - 1) 0 = (S2.codeIdx : Int) + 1 := by
    rw [g6, g5]
    exact getD_set_self S2.returnStack (S2.rsp - 1) ((S2.codeIdx : Int) + 1) 0 (by omega)
  have hb0 : 0 ≤ S4.returnStack.getD (S4.rsp - 1) 0 := by rw [hv4]; omega
  have hb1 : S4.returnStack.getD (S4.rsp - 1) 0 < (S4.codeSpace.length : Int) := by
    rw [hv4, hlen4, e1]; omega
  rw [primThen_eq S4 hc4 hr4 hb0 hb1]
  dsimp only
  rw [hv4]
  have htn2 : ((S2.codeIdx : Int) + 1).toNat = S2.codeIdx + 1 := by omega
  rw [htn2]
  refine ⟨?_, ?_, ?_⟩
  · rw [getD_set_ne S4.codeSpace _ none (by omega)]
    rw [g3 (s0.codeIdx + 1) (by omega)]
    rw [getD_set_self _ (s0.codeIdx + 1) _ none
      (by simp only [List.length_set]; omega)]
    rw [e1]
    norm_cast
  · have hidx : s0.codeIdx + 2 + vs1.length + 1 = S2.codeIdx + 1 := by rw [e1]
    rw [hidx]
    rw [getD_set_self S4.codeSpace (S2.codeIdx + 1) _ none (by omega)]
  · rw [g1, e1]
    omega

theorem innerLoop_stops (fuel : Nat) (i : Int) (s : VM)
    (h : ¬ (i < (s.codeIdx : Int) ∧ s.running = true)) :
    innerLoop (fuel + 1) i s = s := by
  show run (fuel + 1) (.fetch i) s = s
  unfold run
  rw [if_neg h]

theorem colon_exposes_name (s : VM) (w : List Char) (s1 : VM)
    (hpw : parse_word s = (some w, s1))
    (hd : s.dictionary.length < DICT_SIZE) :
    (primColon s).compiling = true ∧
    find_word (primColon s) w = (s.dictionary.length : Int) ∧
    (primColon s).dictionary.length = s.dictionary.length + 1 ∧
    ((primColon s).dictionary.getD s.dictionary.length defaultEntry).name
      = String.mk w := by
  obtain ⟨p, hp⟩ := parse_word_shape s
  have hs1 : s1 = { s with inputPos := p } := by rw [← hp, hpw]
  subst hs1
  unfold primColon
  rw [hpw]
  dsimp only
  rw [create_word_eq (String.mk w) { s with inputPos := p } hd]
  dsimp only
  refine ⟨rfl, ?_, by simp, ?_⟩
  · unfold find_word
    dsimp only
    have hlen : (s.dictionary
        ++ [(⟨String.mk w, false, .user s.codeIdx⟩ : Entry)]).length
        = s.dictionary.length + 1 := by simp
    rw [hlen]
    simp only [findFrom]
    rw [getD_append_length]
    rw [if_pos rfl]
  · rw [getD_append_length]

theorem interpret_halted_fields (fuel : Nat) (line : List Char) (s : VM)
    (h : s.running = false) :
    (interpret (fuel + 1) line s).sp = s.sp ∧
    (interpret (fuel + 1) line s).stack = s.stack ∧
    (interpret (fuel + 1) line s).rsp = s.rsp ∧
    (interpret (fuel + 1) line s).returnStack = s.returnStack ∧
    (interpret (fuel + 1) line s).dictionary = s.dictionary ∧
    (interpret (fuel + 1) line s).codeSpace = s.codeSpace ∧
    (interpret (fuel + 1) line s).codeIdx = s.codeIdx ∧
    (interpret (fuel + 1) line s).running = false ∧
    (interpret (fuel + 1) line s).compiling = s.compiling ∧
    (interpret (fuel + 1) line s).currentWord = s.currentWord ∧
    (interpret (fuel + 1) line s).lastError = s.lastError ∧
    (interpret (fuel + 1) line s).crashed = s.crashed ∧
    (interpret (fuel + 1) line s).inputBuffer = line := by
  obtain ⟨p, hp⟩ := parse_word_shape { s with inputBuffer := line, inputPos := 0 }
  have key : interpret (fuel + 1) line s
      = (parse_word { s with inputBuffer := line, inputPos := 0 }).2 := by
    unfold interpret
    dsimp only
    cases hw : (parse_word { s with inputBuffer := line, inputPos := 0 }).1 with
    | none =>
        unfold interpretAux
        rfl
    | some cs =>
        unfold interpretAux
        dsimp only
        rw [if_neg (by rw [hp]; dsimp only; rw [h]; simp)]
  rw [key, hp]
  exact ⟨rfl, rfl, rfl, rfl, rfl, rfl, rfl, h, rfl, rfl, rfl, rfl, rfl⟩



/-! ## Claim C1 -/

/-- C1 (code bug evidence): the claim says every cell stored by arithmetic
lies in `[-32768, 32767]`, and names the input `32767 1 +` as wrapping back
into that range.  Running exactly that input on a fresh VM stores `32768`
at the top of the data stack: `push` masks non-negative values with
`& 0xFFFF` (unsigned 16-bit, up to 65535), so the stored cell violates the
claimed signed range. -/
theorem c1_add_result_escapes_cell_range :
    (interpret 100 "32767 1 +".data initVM).sp = 1 ∧
    (interpret 100 "32767 1 +".data initVM).stack.getD 0 0 = 32768 ∧
    ¬ ((interpret 100 "32767 1 +".data initVM).stack.getD 0 0 ≤ 32767) ∧
    (interpret 100 "32767 1 +".data initVM).lastError = none ∧
    (interpret 100 "32767 1 +".data initVM).timeout = false := by
  decide

/-! ## Claim C2 -/

/-- C2 (code bug evidence): compiling the in-range literal `-1` inside a
definition emits the code cell `-(-1)-1 = 0`, which is non-negative and is
therefore decoded by the inner interpreter as a call to dictionary entry 0
(`DUP`), not as a literal push of `-1`: with `5` on the stack, running the
word duplicates the `5` instead of pushing `-1`. -/
theorem c2_negative_literal_compiles_to_call :
    (interpret 200 ": T -1 ;".data initVM).codeSpace.getD 0 none = some 0 ∧
    ((interpret 200 ": T -1 ;".data initVM).dictionary.getD 0 defaultEntry).name
      = "DUP" ∧
    (interpret 200 "5 T".data (interpret 200 ": T -1 ;".data initVM)).sp = 2 ∧
    (interpret 200 "5 T".data
      (interpret 200 ": T -1 ;".data initVM)).stack.getD 0 0 = 5 ∧
    (interpret 200 "5 T".data
      (interpret 200 ": T -1 ;".data initVM)).stack.getD 1 0 = 5 ∧
    (interpret 200 "5 T".data
      (interpret 200 ": T -1 ;".data initVM)).timeout = false ∧
    (interpret 200 "5 T".data
      (interpret 200 ": T -1 ;".data initVM)).crashed = false := by
  decide

/-! ## Claim C3 -/

/-- C3 (code bug evidence): executing `AND` on an empty data stack reports
`Stack underflow` yet still pushes a result cell, so the depth changes by
+1, not 0 — the lambda for `AND` (and `OR`/`XOR`) has no underflow guard
and `pop` returns 0 after reporting the error. -/
theorem c3_and_on_empty_stack_changes_depth :
    initVM.sp = 0 ∧
    (interpret 100 "AND".data initVM).sp = 1 ∧
    (interpret 100 "AND".data initVM).lastError = some .stackUnderflow ∧
    (interpret 100 "AND".data initVM).running = true ∧
    (interpret 100 "AND".data initVM).timeout = false := by
  decide

/-! ## Claim C4 -/

/-- C4 (code bug evidence): in `: W 7 DO LOOP ;`, `DO` records loop-top
offset 1 and `LOOP` emits the bare cell `1`.  At run time the inner
interpreter decodes the non-negative cell 1 as a call to dictionary entry 1
(`DROP`), not as a jump: running `W` terminates immediately with the pushed
7 dropped (sp = 0), whereas an unconditional jump back to the loop top
would re-execute the empty body forever. -/
theorem c4_loop_target_executed_as_call :
    (interpret 200 ": W 7 DO LOOP ;".data initVM).codeSpace.getD 1 none
      = some 1 ∧
    ((interpret 200 ": W 7 DO LOOP ;".data initVM).dictionary.getD 1
      defaultEntry).name = "DROP" ∧
    (interpret 200 "W".data
      (interpret 200 ": W 7 DO LOOP ;".data initVM)).sp = 0 ∧
    (interpret 200 "W".data
      (interpret 200 ": W 7 DO LOOP ;".data initVM)).lastError = none ∧
    (interpret 200 "W".data
      (interpret 200 ": W 7 DO LOOP ;".data initVM)).running = true ∧
    (interpret 200 "W".data
      (interpret 200 ": W 7 DO LOOP ;".data initVM)).timeout = false ∧
    (interpret 200 "W".data
      (interpret 200 ": W 7 DO LOOP ;".data initVM)).crashed = false := by
  decide

/-! ## Claim C7 -/

/-- C7 counterexample: after interpreting the line `: FOO` (definition
opened, `;` not yet executed, `compiling` still true), `find_word`
already returns the entry being defined (index 41, name `FOO`), refuting
the claim that no name is exposed until `;` commits the definition. -/
theorem c7_name_findable_before_semicolon :
    (interpret 100 ": FOO".data initVM).compiling = true ∧
    find_word (interpret 100 ": FOO".data initVM) "FOO".data = 41 ∧
    ((interpret 100 ": FOO".data initVM).dictionary.getD 41
      defaultEntry).name = "FOO" ∧
    (interpret 100 ": FOO".data initVM).dictionary.length = 42 := by
  decide

/-! ## Claim C8 -/

/-- C8 counterexample: `;` executed while compiling with an empty control
stack (the line `: X ;` — no opener ever pushed a hole) succeeds with no
error at all, refuting the claim that it fails with
`UnbalancedControlFlow`. -/
theorem c8_semicolon_with_empty_control_stack_succeeds :
    (interpret 200 ": X ;".data initVM).lastError = none ∧
    (interpret 200 ": X ;".data initVM).compiling = false ∧
    (interpret 200 ": X ;".data initVM).running = true ∧
    (interpret 200 ": X ;".data initVM).timeout = false := by
  decide

/-- C8 amended: `;` does not consult the control stack and succeeds with
an empty one; `THEN` and `LOOP` while compiling with an empty control
stack fail with the return-stack-underflow error (not a dedicated
`UnbalancedControlFlow` error); each compile-only word used in interpret
state fails with its own `<word> outside of definition` error. -/
theorem c8_control_flow_error_behavior :
    ((interpret 200 ": X ;".data initVM).lastError = none ∧
     (interpret 200 ": X ;".data initVM).compiling = false) ∧
    ((interpret 200 ": Y THEN".data initVM).lastError
        = some .returnStackUnderflow ∧
     (interpret 200 ": Y THEN".data initVM).running = false) ∧
    ((interpret 200 ": Z LOOP".data initVM).lastError
        = some .returnStackUnderflow ∧
     (interpret 200 ": Z LOOP".data initVM).running = false) ∧
    (interpret 200 "THEN".data initVM).lastError
        = some .thenOutsideDefinition ∧
    (interpret 200 "IF".data initVM).lastError = some .ifOutsideDefinition ∧
    (interpret 200 ";".data initVM).lastError
        = some .semicolonOutsideDefinition := by
  decide

/-! ## Claim C9 -/

/-- C9 counterexample: on the line `DROP 42` with an empty stack, `DROP`
fails with `Stack underflow` in interpret state, yet the remaining token
`42` is still processed and pushed — the line is not abandoned, refuting
the claim. -/
theorem c9_tokens_after_error_still_processed :
    (interpret 200 "DROP 42".data initVM).lastError = some .stackUnderflow ∧
    (interpret 200 "DROP 42".data initVM).sp = 1 ∧
    (interpret 200 "DROP 42".data initVM).stack.getD 0 0 = 42 ∧
    (interpret 200 "DROP 42".data initVM).timeout = false := by
  decide

/-- C9 amended: an error in interpret state records `last_error`, leaves
the data stack unreset, and keeps `running` true, but whether the rest of
the line is processed depends on how the failing token fails: after an
error whose primitive returns normally (`DROP` underflow) the loop
continues and the remaining tokens are processed; an unknown-word error
breaks out of the line; and the underflow paths of `DUP`/`+`/`*`/`R@`
pass the `None` returned by `_error` to `push`, raising an uncaught
`TypeError` (`crashed` in the embedding) that also aborts the line with
the remaining tokens unprocessed. -/
theorem c9_interpret_state_error_policy :
    ((interpret 200 "DROP 42".data initVM).lastError
        = some .stackUnderflow ∧
     (interpret 200 "DROP 42".data initVM).sp = 1 ∧
     (interpret 200 "DROP 42".data initVM).stack.getD 0 0 = 42 ∧
     (interpret 200 "DROP 42".data initVM).running = true ∧
     (interpret 200 "DROP 42".data initVM).crashed = false) ∧
    ((interpret 200 "FROB 42".data initVM).lastError
        = some (.unknownWord "FROB".data) ∧
     (interpret 200 "FROB 42".data initVM).sp = 0 ∧
     (interpret 200 "FROB 42".data initVM).running = true ∧
     (interpret 200 "FROB 42".data initVM).crashed = false) ∧
    ((interpret 200 "DUP 42".data initVM).lastError
        = some .stackUnderflow ∧
     (interpret 200 "DUP 42".data initVM).crashed = true ∧
     (interpret 200 "DUP 42".data initVM).sp = 0 ∧
     (interpret 200 "DUP 42".data initVM).running = true) := by
  decide

/-! ## Claim C10 -/

/-- C10 counterexample: after an error during compilation (`: X FROB`)
the VM has `running = false`, but a subsequent `interpret` call still
mutates VM state: it overwrites `input_buffer` with the new line and
advances `input_pos` past the first token, refuting `mutates no VM
state`. -/
theorem c10_halted_interpret_mutates_input_fields :
    (interpret 200 ": X FROB".data initVM).running = false ∧
    (interpret 200 ": X FROB".data initVM).compiling = true ∧
    (interpret 200 ": X FROB".data initVM).inputPos = 8 ∧
    (interpret 10 "1 2".data
      (interpret 200 ": X FROB".data initVM)).inputPos = 1 ∧
    (interpret 10 "1 2".data
      (interpret 200 ": X FROB".data initVM)).inputBuffer
      ≠ (interpret 200 ": X FROB".data initVM).inputBuffer := by
  decide

/-! ## Claim C5 -/

/-- C5: branch patching.  For any compiling state with capacity to spare:
for `IF <body> THEN`, the `0BRANCH` operand cell (emitted by `IF` at offset
`codeIdx + 1`) is patched by `THEN` to the code-space cursor at the moment
`THEN` executes; for `IF <body1> ELSE <body2> THEN`, the `0BRANCH` operand
is patched by `ELSE` to the offset immediately after the operand cell of
the `BRANCH` emitted by `ELSE` (the `BRANCH` opcode sits at
`codeIdx + 2 + body1.length`, its operand one cell later), and that
`BRANCH` operand is patched by `THEN` to the cursor at the moment `THEN`
executes.  Bodies are arbitrary straight-line emission sequences. -/
theorem c5_branch_patching :
    (∀ (s0 : VM) (vs : List Cell),
      s0.compiling = true →
      0 ≤ find_word s0 zeroBranchName →
      s0.codeSpace.length = MAX_CODE_SIZE →
      s0.returnStack.length = RETURN_STACK_SIZE →
      s0.rsp < RETURN_STACK_SIZE →
      s0.codeIdx + 2 + vs.length ≤ MAX_CODE_SIZE →
      (primThen (emitList vs (primIf s0))).codeSpace.getD (s0.codeIdx + 1) none
        = some (((primThen (emitList vs (primIf s0))).codeIdx : Nat) : Int) ∧
      (primThen (emitList vs (primIf s0))).codeIdx
        = s0.codeIdx + 2 + vs.length) ∧
    (∀ (s0 : VM) (vs1 vs2 : List Cell),
      s0.compiling = true →
      0 ≤ find_word s0 zeroBranchName →
      0 ≤ find_word s0 branchName →
      s0.codeSpace.length = MAX_CODE_SIZE →
      s0.returnStack.length = RETURN_STACK_SIZE →
      s0.rsp < RETURN_STACK_SIZE →
      s0.codeIdx + 4 + vs1.length + vs2.length ≤ MAX_CODE_SIZE →
      (primThen (emitList vs2 (primElse
          (emitList vs1 (primIf s0))))).codeSpace.getD (s0.codeIdx + 1) none
        = some ((s0.codeIdx + 2 + vs1.length + 2 : Nat) : Int) ∧
      (primThen (emitList vs2 (primElse
          (emitList vs1 (primIf s0))))).codeSpace.getD
          (s0.codeIdx + 2 + vs1.length + 1) none
        = some (((primThen (emitList vs2 (primElse
            (emitList vs1 (primIf s0))))).codeIdx : Nat) : Int) ∧
      (primThen (emitList vs2 (primElse (emitList vs1 (primIf s0))))).codeIdx
        = s0.codeIdx + 4 + vs1.length + vs2.length) :=
  ⟨fun s0 vs hc hz hclen hrlen hr hcap =>
    branch_patch_if_then s0 vs hc hz hclen hrlen hr hcap,
   fun s0 vs1 vs2 hc hz hbr hclen hrlen hr hcap =>
    branch_patch_if_else_then s0 vs1 vs2 hc hz hbr hclen hrlen hr hcap⟩

/-- Witness for C5 at a concrete compiling state (fresh VM after `: F`,
cursor 0) with one-cell bodies. -/
theorem c5_branch_patching_witness :
    (primThen (emitList [some 8]
        (primIf (interpret 100 ": F".data initVM)))).codeSpace.getD 1 none
      = some (((primThen (emitList [some 8]
          (primIf (interpret 100 ": F".data initVM)))).codeIdx : Nat) : Int) ∧
    (primThen (emitList [some 10] (primElse (emitList [some 8]
        (primIf (interpret 100 ": F".data initVM)))))).codeSpace.getD 1 none
      = some 5 :=
  ⟨(c5_branch_patching.1 (interpret 100 ": F".data initVM) [some 8]
      (by decide) (by decide) (by decide) (by decide) (by decide) (by decide)).1,
   (c5_branch_patching.2 (interpret 100 ": F".data initVM) [some 8] [some 10]
      (by decide) (by decide) (by decide) (by decide) (by decide) (by decide)
      (by decide)).1⟩

/-! ## Claim C6 -/

/-- C6: the inner fetch loop continues exactly while the instruction
pointer is below the end of occupied code space and the VM is running
(when that guard fails the loop returns the state unchanged); the `EXIT`
compiled by `;` is a run-time no-op.  Consequently, invoking a user word
walks past its own `EXIT` into code compiled after it: after `: A 1 ;`
(cells 0..1) and `: B 2 ;` (cells 2..3), running `A` pushes both 1 and 2,
stopping only at the end of occupied code space (offset 4). -/
theorem c6_fetch_loop_termination :
    (∀ s : VM, primExit s = s) ∧
    (∀ (fuel : Nat) (i : Int) (s : VM),
      ¬ (i < (s.codeIdx : Int) ∧ s.running = true) →
      innerLoop (fuel + 1) i s = s) ∧
    ((interpret 300 ": A 1 ;".data initVM).codeIdx = 2 ∧
     ((interpret 300 ": B 2 ;".data
        (interpret 300 ": A 1 ;".data initVM)).dictionary.getD 41
        defaultEntry).body = Body.user 0 ∧
     (interpret 300 ": B 2 ;".data
        (interpret 300 ": A 1 ;".data initVM)).codeIdx = 4 ∧
     (interpret 300 "A".data (interpret 300 ": B 2 ;".data
        (interpret 300 ": A 1 ;".data initVM))).sp = 2 ∧
     (interpret 300 "A".data (interpret 300 ": B 2 ;".data
        (interpret 300 ": A 1 ;".data initVM))).stack.getD 0 0 = 1 ∧
     (interpret 300 "A".data (interpret 300 ": B 2 ;".data
        (interpret 300 ": A 1 ;".data initVM))).stack.getD 1 0 = 2 ∧
     (interpret 300 "A".data (interpret 300 ": B 2 ;".data
        (interpret 300 ": A 1 ;".data initVM))).running = true ∧
     (interpret 300 "A".data (interpret 300 ": B 2 ;".data
        (interpret 300 ": A 1 ;".data initVM))).crashed = false ∧
     (interpret 300 "A".data (interpret 300 ": B 2 ;".data
        (interpret 300 ": A 1 ;".data initVM))).timeout = false) :=
  ⟨fun _ => rfl,
   fun fuel i s h => innerLoop_stops fuel i s h,
   by decide⟩

/-- Witness for C6: the fetch loop entered past the end of the (empty)
occupied code space of a fresh VM returns the state unchanged. -/
theorem c6_fetch_loop_termination_witness :
    innerLoop 3 7 initVM = initVM :=
  c6_fetch_loop_termination.2.1 2 7 initVM (by decide)

/-- C7 amended: the dictionary entry is created and exposed the moment
`:` executes, not when `;` commits: after `:` parses name `w`, lookup of
`w` already returns the entry being defined (the newly appended index),
while `compiling` is true. -/
theorem c7_colon_exposes_entry (s : VM) (w : List Char) (s1 : VM)
    (hpw : parse_word s = (some w, s1))
    (hd : s.dictionary.length < DICT_SIZE) :
    (primColon s).compiling = true ∧
    find_word (primColon s) w = (s.dictionary.length : Int) ∧
    (primColon s).dictionary.length = s.dictionary.length + 1 ∧
    ((primColon s).dictionary.getD s.dictionary.length defaultEntry).name
      = String.mk w :=
  colon_exposes_name s w s1 hpw hd

/-- Witness for C7 on a fresh VM with `FOO` in the input buffer. -/
theorem c7_colon_exposes_entry_witness :
    (primColon { initVM with inputBuffer := "FOO".data }).compiling = true ∧
    find_word (primColon { initVM with inputBuffer := "FOO".data })
      "FOO".data = 41 :=
  ⟨(c7_colon_exposes_entry { initVM with inputBuffer := "FOO".data }
      "FOO".data { initVM with inputBuffer := "FOO".data, inputPos := 3 }
      (by decide) (by decide)).1,
   (c7_colon_exposes_entry { initVM with inputBuffer := "FOO".data }
      "FOO".data { initVM with inputBuffer := "FOO".data, inputPos := 3 }
      (by decide) (by decide)).2.1⟩

/-- C10 amended: an error during compilation clears `running`, and nothing
sets it back: a subsequent `interpret` call on a VM with `running = false`
processes zero tokens and mutates nothing except the input buffer (set to
the new line) and the input position (advanced by the initial
`parse_word` call) — stacks, dictionary, code space, flags and the error
slot are all unchanged, and `running` stays false. -/
theorem c10_halted_vm_inert :
    (∀ (m : Err) (s : VM), s.compiling = true → (vmError m s).running = false) ∧
    (∀ (fuel : Nat) (line : List Char) (s : VM), s.running = false →
      (interpret (fuel + 1) line s).sp = s.sp ∧
      (interpret (fuel + 1) line s).stack = s.stack ∧
      (interpret (fuel + 1) line s).rsp = s.rsp ∧
      (interpret (fuel + 1) line s).returnStack = s.returnStack ∧
      (interpret (fuel + 1) line s).dictionary = s.dictionary ∧
      (interpret (fuel + 1) line s).codeSpace = s.codeSpace ∧
      (interpret (fuel + 1) line s).codeIdx = s.codeIdx ∧
      (interpret (fuel + 1) line s).running = false ∧
      (interpret (fuel + 1) line s).compiling = s.compiling ∧
      (interpret (fuel + 1) line s).currentWord = s.currentWord ∧
      (interpret (fuel + 1) line s).lastError = s.lastError ∧
      (interpret (fuel + 1) line s).crashed = s.crashed ∧
      (interpret (fuel + 1) line s).inputBuffer = line) :=
  ⟨fun m s h => by unfold vmError; dsimp only; rw [h]; simp,
   fun fuel line s h => interpret_halted_fields fuel line s h⟩

/-- Witness for C10: an error while compiling halts the VM, and a halted
VM keeps its stack pointer across a further `interpret` call. -/
theorem c10_halted_vm_inert_witness :
    (vmError .stackUnderflow { initVM with compiling := true }).running
      = false ∧
    (interpret 5 "1 2".data { initVM with running := false }).sp
      = ({ initVM with running := false } : VM).sp :=
  ⟨c10_halted_vm_inert.1 .stackUnderflow { initVM with compiling := true } rfl,
   (c10_halted_vm_inert.2 4 "1 2".data { initVM with running := false } rfl).1⟩

end PicoForth
